import Mathlib

/-!
Verification of the Benzaiten AWS API server core against its specification.

The development shallowly embeds the two core modules:
* `src/layer/benzaiten_api/authorizer.py` — the authorization decision engine
  (`is_allowed`), with the DynamoDB store outcome and the RSA/base64 crypto
  primitives supplied as explicit capabilities;
* `src/aws_lambda/api_metrics_put/put.py` — the request validator
  (`parse_event`), the `Metric` / `Request` data model with its identity and
  hashing semantics, and the outbound queue message.

Machine-level conventions of the embedding:
* Python exceptions are `Except` values; an exception that a `try` block of the
  source catches is turned into the response the handler builds, an exception
  no handler catches surfaces as an `uncaught` outcome.
* External library calls (RSA import, PKCS#1 verification, base64, JSON) are
  fields of an environment record; the control flow around them is the code
  under verification.
* `datetime.strptime`/`strftime` for the canonical format
  `%Y-%m-%d %H:%M:%S` (and the compact `%Y%m%d%H%M%S` used for hashing) are
  implemented concretely; the parser accepts the canonical zero-padded form.
* Numeric JSON payloads are carried by an exact integer carrier: the code never
  performs arithmetic on a metric value, it only stores, compares and reprints
  it.
-/

namespace Benzaiten

/-- Mirror of `response.BaseResponse` (`src/layer/benzaiten_api/response.py`):
a status code, a header map and a body. -/
structure BaseResponse where
  statusCode : Nat
  headers : List (String × String)
  body : String
deriving DecidableEq, Repr

/-- Mirror of `datetime.datetime` restricted to the fields the code touches:
a calendar timestamp with microsecond precision. -/
structure PyDateTime where
  year : Nat
  month : Nat
  day : Nat
  hour : Nat
  minute : Nat
  second : Nat
  usec : Nat
deriving DecidableEq, Repr

/-- Gregorian leap-year rule, as implemented by `datetime`. -/
def isLeap (y : Nat) : Bool :=
  y % 4 == 0 && (y % 100 != 0 || y % 400 == 0)

/-- Length of a month, as enforced by `datetime`. -/
def daysInMonth (y m : Nat) : Nat :=
  if m = 2 then (if isLeap y then 29 else 28)
  else if m = 4 ∨ m = 6 ∨ m = 9 ∨ m = 11 then 30
  else 31

/-- The values a `datetime.datetime` can actually hold: `datetime` validates
all fields on construction and `strptime` rejects anything outside these
ranges. -/
def PyDateTime.isValid (d : PyDateTime) : Bool :=
  1 ≤ d.year && d.year ≤ 9999 &&
  1 ≤ d.month && d.month ≤ 12 &&
  1 ≤ d.day && d.day ≤ daysInMonth d.year d.month &&
  d.hour ≤ 23 && d.minute ≤ 59 && d.second ≤ 59 && d.usec ≤ 999999

/-- `datetime` comparison: lexicographic on the calendar fields,
microseconds included (`expiration_date < now` in the authorizer). -/
def dtLt (a b : PyDateTime) : Bool :=
  if a.year ≠ b.year then a.year < b.year
  else if a.month ≠ b.month then a.month < b.month
  else if a.day ≠ b.day then a.day < b.day
  else if a.hour ≠ b.hour then a.hour < b.hour
  else if a.minute ≠ b.minute then a.minute < b.minute
  else if a.second ≠ b.second then a.second < b.second
  else a.usec < b.usec

/-- ASCII digit for a value below ten. -/
def digitChar (n : Nat) : Char := Char.ofNat (48 + n)

/-- Two-digit zero-padded rendering (`%m`, `%d`, `%H`, `%M`, `%S`). -/
def pad2 (n : Nat) : List Char := [digitChar (n / 10), digitChar (n % 10)]

/-- Four-digit zero-padded rendering (`%Y`). -/
def pad4 (n : Nat) : List Char :=
  [digitChar (n / 1000), digitChar (n / 100 % 10), digitChar (n / 10 % 10), digitChar (n % 10)]

/-- `strftime('%Y-%m-%d %H:%M:%S')`: the canonical date format of the key
store, the metric payloads and the queue messages. -/
def strftimeCanonical (d : PyDateTime) : String :=
  String.mk (pad4 d.year ++ '-' :: pad2 d.month ++ '-' :: pad2 d.day ++
    ' ' :: pad2 d.hour ++ ':' :: pad2 d.minute ++ ':' :: pad2 d.second)

/-- `strftime('%Y%m%d%H%M%S')`: the compact rendering `Metric.__hash__`
feeds into the hashed string. -/
def strftimeCompact (d : PyDateTime) : String :=
  String.mk (pad4 d.year ++ pad2 d.month ++ pad2 d.day ++
    pad2 d.hour ++ pad2 d.minute ++ pad2 d.second)

/-- Numeric value of an ASCII digit. -/
def digitVal (c : Char) : Nat := c.toNat - 48

/-- Read exactly two digits. -/
def parse2 : List Char → Option (Nat × List Char)
  | a :: b :: rest =>
    if a.isDigit && b.isDigit then some (digitVal a * 10 + digitVal b, rest) else none
  | _ => none

/-- Read exactly four digits. -/
def parse4 : List Char → Option (Nat × List Char)
  | a :: b :: c :: d :: rest =>
    if a.isDigit && b.isDigit && c.isDigit && d.isDigit then
      some (digitVal a * 1000 + digitVal b * 100 + digitVal c * 10 + digitVal d, rest)
    else none
  | _ => none

/-- Require a literal separator character. -/
def expectChar (c : Char) : List Char → Option (List Char)
  | a :: rest => if a = c then some rest else none
  | _ => none

/-- `datetime.strptime(s, '%Y-%m-%d %H:%M:%S')` on canonical zero-padded
input: positional parse of each field, then the same range validation
`datetime` performs; `none` models the `ValueError` Python raises. -/
def strptimeCanonical (s : String) : Option PyDateTime := do
  let cs := s.data
  let (y, cs) ← parse4 cs
  let cs ← expectChar '-' cs
  let (mo, cs) ← parse2 cs
  let cs ← expectChar '-' cs
  let (d, cs) ← parse2 cs
  let cs ← expectChar ' ' cs
  let (h, cs) ← parse2 cs
  let cs ← expectChar ':' cs
  let (mi, cs) ← parse2 cs
  let cs ← expectChar ':' cs
  let (sec, cs) ← parse2 cs
  if cs = [] then
    let dt : PyDateTime := ⟨y, mo, d, h, mi, sec, 0⟩
    if dt.isValid then some dt else none
  else none

/-! ## Authorization engine (`src/layer/benzaiten_api/authorizer.py`) -/

/-- A DynamoDB attribute value as the authorizer reads it: a string scalar
(key `S`), a string set (key `SS`), or binary material (key `B`). Binary also
stands for any further attribute type: for the location and expiration
attributes the code only ever asks for the `S`/`SS` entries, so every other
shape behaves as a missing key (`KeyError`). -/
inductive AttrVal where
  | s (v : String)
  | ss (v : List String)
  | b (v : List Nat)
deriving DecidableEq, Repr

/-- The projected key record (`pub_key`, the method's location attribute and
`expiration_date_utc`); an absent field is an absent map key. -/
structure Item where
  pub_key : Option AttrVal := none
  location_get : Option AttrVal := none
  location_put : Option AttrVal := none
  expiration_date_utc : Option AttrVal := none
deriving DecidableEq, Repr

/-- `item[name]` for the two location attribute names the code selects. -/
def getAttr (item : Item) (name : String) : Option AttrVal :=
  if name = "location_get" then item.location_get
  else if name = "location_put" then item.location_put
  else none

/-- Outcome of the single `dynamo_client.get_item` call: a record under
`'Item'`, an empty response, or a `botocore` `ClientError` carrying an error
code. -/
inductive StoreResult where
  | found (item : Item)
  | notFound
  | clientError (code : String)
deriving DecidableEq, Repr

/-- The exceptions the authorizer's `try` block distinguishes:
`except KeyError` and `except ValueError`. -/
inductive AuthErr where
  | keyError
  | valueError
deriving DecidableEq, Repr

/-- The cryptographic capabilities the verification step calls into.
`importKey` is `RSA.importKey` (`none` = `ValueError` on malformed key
bytes), `b64decode` is `base64.b64decode` on the signature text (`none` =
`binascii.Error`, a `ValueError`), `sha512` is `SHA512.new` on the message's
UTF-8 bytes, and `verify` is `pkcs1_15.new(key).verify(digest, sig)` returned
as a Bool (`false` = the `ValueError` a failed verification raises). -/
structure CryptoEnv where
  sha512 : String → List Nat
  importKey : List Nat → Option (List Nat)
  b64decode : String → Option (List Nat)
  verify : List Nat → List Nat → List Nat → Bool

/-- Expiration block of `is_allowed`: if `expiration_date_utc` is present,
read its `'S'` entry (wrong shape = `KeyError`), parse it (inner
`except ValueError` returns 500), and reject strictly-past timestamps with
403; `some r` is an early return, `none` falls through. -/
def expirationCheck (now : PyDateTime) (item : Item) :
    Except AuthErr (Option BaseResponse) :=
  match item.expiration_date_utc with
  | none => .ok none
  | some (.s str) =>
    match strptimeCanonical str with
    | none => .ok (some ⟨500, [], "Internal Server Error"⟩)
    | some expiration_date =>
      if dtLt expiration_date now then .ok (some ⟨403, [], "Expired API Key"⟩)
      else .ok none
  | some _ => .error .keyError

/-- Location block of `is_allowed`: an `'S'` scalar passes only as the
wildcard `*`, otherwise 403; an `'SS'` set passes iff the requested location
is a member; a missing attribute or any other shape raises `KeyError`. -/
def locationCheck (item : Item) (location_attribute location : String) :
    Except AuthErr (Option BaseResponse) :=
  match getAttr item location_attribute with
  | none => .error .keyError
  | some (.s v) =>
    if v ≠ "*" then .ok (some ⟨403, [], "Forbidden"⟩) else .ok none
  | some (.ss vs) =>
    if location ∈ vs then .ok none else .ok (some ⟨403, [], "Forbidden"⟩)
  | some (.b _) => .error .keyError

/-- Signature block of `is_allowed`: digest the message, read the record's
`pub_key` `'B'` bytes (wrong shape or absence = `KeyError`), import the key,
base64-decode the signature and verify; each crypto failure is the
`ValueError` the outer handler maps to 401. -/
def signatureCheck (env : CryptoEnv) (item : Item) (message signature : String) :
    Except AuthErr BaseResponse :=
  let digest := env.sha512 message
  match item.pub_key with
  | some (.b keyBytes) =>
    match env.importKey keyBytes with
    | none => .error .valueError
    | some pub_key =>
      match env.b64decode signature with
      | none => .error .valueError
      | some sig =>
        if env.verify pub_key digest sig then .ok ⟨200, [], "Access Granted"⟩
        else .error .valueError
  | some _ => .error .keyError
  | none => .error .keyError

/-- The part of the record processing that runs once the expiration test has
fallen through. -/
def afterExpiration (env : CryptoEnv) (item : Item)
    (message signature location location_attribute : String) :
    Except AuthErr BaseResponse :=
  match locationCheck item location_attribute location with
  | .error e => .error e
  | .ok (some r) => .ok r
  | .ok none => signatureCheck env item message signature

/-- Body of the `try` block guarding the found-record processing. -/
def processItem (env : CryptoEnv) (now : PyDateTime) (item : Item)
    (message signature location location_attribute : String) :
    Except AuthErr BaseResponse :=
  match expirationCheck now item with
  | .error e => .error e
  | .ok (some r) => .ok r
  | .ok none => afterExpiration env item message signature location location_attribute

/-- The authorizer's exception handlers: `except KeyError` → 500,
`except ValueError` → 401. -/
def wrapExc : Except AuthErr BaseResponse → BaseResponse
  | .ok r => r
  | .error .keyError => ⟨500, [], "Internal Server Error"⟩
  | .error .valueError => ⟨401, [], "Unauthorized"⟩

/-- The location attribute name selected for the method. -/
def locAttrOf (method : String) : String :=
  if method = "GET" then "location_get"
  else if method = "PUT" then "location_put"
  else ""

/-- `authorizer.is_allowed(key, message, signature, location, method)`.
`now` is the `datetime.datetime.utcnow()` sample and `store` the outcome of
the single `get_item` call; both are injected so the decision tree over them
is explicit. -/
def is_allowed (env : CryptoEnv) (now : PyDateTime) (store : StoreResult)
    (key message signature location method : String) : BaseResponse :=
  if ¬(method = "PUT" ∨ method = "GET") then
    ⟨405, [], "Method not accepted"⟩
  else if signature = "earlgrey" then
    ⟨418, [], "I\x27m a teapot"⟩
  else
    let location_attribute := locAttrOf method
    match store with
    | .clientError code =>
      if code = "ProvisionedThroughputExceededException" ∨ code = "RequestLimitExceeded" then
        ⟨503, [], "Service Unavailable"⟩
      else if code = "UnauthorizedOperation" then
        ⟨511, [], "Network authentication required "⟩
      else
        ⟨500, [], "Internal Server Error"⟩
    | .notFound => ⟨403, [], "Invalid API Key"⟩
    | .found item =>
      wrapExc (processItem env now item message signature location location_attribute)

/-- The decision `is_allowed` reaches when a found record passes the
expiration and location tests: the wrapped signature verification. -/
def sigStage (env : CryptoEnv) (item : Item) (message signature : String) : BaseResponse :=
  wrapExc (signatureCheck env item message signature)

/-! ## Python values for the validator (`src/aws_lambda/api_metrics_put/put.py`) -/

/-- The Python values flowing through the validator: the JSON scalars,
lists and string-keyed objects `json.loads` can produce, plus
`datetime.datetime` objects (a metric dict built in process may carry one).
`num` is the exact carrier for JSON numbers. -/
inductive PyVal where
  | str (s : String)
  | num (n : Int)
  | bool (b : Bool)
  | null
  | dt (d : PyDateTime)
  | list (xs : List PyVal)
  | dict (kvs : List (String × PyVal))

/-- First binding of a key in a dict (Python dicts hold each key once). -/
def dlookup : List (String × PyVal) → String → Option PyVal
  | [], _ => none
  | (k, v) :: rest, key => if k = key then some v else dlookup rest key

/-- `d.get(key)`: the binding, or `None` when absent. -/
def dGetNull (d : List (String × PyVal)) (key : String) : PyVal :=
  match dlookup d key with
  | some v => v
  | none => .null

/-- The exceptions the validator's code distinguishes: the
`except (TypeError, KeyError)` pair it catches and the `ValueError` it does
not. -/
inductive PyErr where
  | keyError
  | valueError
  | typeError
deriving DecidableEq, Repr

/-- `v[key]` for a string key: a dict lookup (`KeyError` when absent); on a
list or string Python raises `TypeError` (string indices must be integers),
and every other value is not subscriptable (`TypeError`). -/
def pyGetItem (v : PyVal) (key : String) : Except PyErr PyVal :=
  match v with
  | .dict kvs =>
    match dlookup kvs key with
    | some w => .ok w
    | none => .error .keyError
  | _ => .error .typeError

/-- Python truthiness for the values above (`if not location_name`). -/
def pyFalsy : PyVal → Bool
  | .str s => s = ""
  | .num n => n = 0
  | .bool b => !b
  | .null => true
  | .dt _ => false
  | .list xs => xs.isEmpty
  | .dict kvs => kvs.isEmpty

/-- `hasattr(v, '__iter__')`: strings, lists and dicts iterate, the scalar
values do not. -/
def pyIterable : PyVal → Bool
  | .str _ => true
  | .list _ => true
  | .dict _ => true
  | _ => false

/-- The elements `for m in v` yields: list items, string characters, dict
keys. -/
def pyIterate : PyVal → List PyVal
  | .list xs => xs
  | .str s => s.data.map (fun c => .str (String.mk [c]))
  | .dict kvs => kvs.map (fun kv => .str kv.1)
  | _ => []

mutual

/-- Python `==` on the values above: same-type structural comparison, the
numeric tower identifying `bool` with 0/1, dict comparison key-wise and
order-insensitive, everything else `False` across types. -/
def pyBeq : PyVal → PyVal → Bool
  | .str a, .str b => a == b
  | .num a, .num b => a == b
  | .bool a, .bool b => a == b
  | .bool a, .num b => (if a then (1 : Int) else 0) == b
  | .num a, .bool b => a == (if b then (1 : Int) else 0)
  | .null, .null => true
  | .dt a, .dt b => a == b
  | .list xs, .list ys => pyBeqList xs ys
  | .dict xs, .dict ys => xs.length == ys.length && pyBeqDictSub xs ys
  | _, _ => false

/-- Pointwise `==` of two Python lists. -/
def pyBeqList : List PyVal → List PyVal → Bool
  | [], [] => true
  | x :: xs, y :: ys => pyBeq x y && pyBeqList xs ys
  | _, _ => false

/-- Every binding of the first dict matches the second. -/
def pyBeqDictSub : List (String × PyVal) → List (String × PyVal) → Bool
  | [], _ => true
  | (k, v) :: xs, ys =>
    (match dlookup ys k with
     | some w => pyBeq v w
     | none => false) && pyBeqDictSub xs ys

end

mutual

/-- `repr` of a value, as an f-string interpolates a dict
(quote-free strings assumed; the code only reprs inbound metric entries). -/
def pyRepr : PyVal → String
  | .str s => "\x27" ++ s ++ "\x27"
  | .num n => toString n
  | .bool b => if b then "True" else "False"
  | .null => "None"
  | .dt d =>
    "datetime.datetime(" ++ toString d.year ++ ", " ++ toString d.month ++ ", " ++
      toString d.day ++ ", " ++ toString d.hour ++ ", " ++ toString d.minute ++ ", " ++
      toString d.second ++ ")"
  | .list xs => "[" ++ pyReprList xs ++ "]"
  | .dict kvs => "\x7b" ++ pyReprDict kvs ++ "\x7d"

/-- Comma-joined reprs of list items. -/
def pyReprList : List PyVal → String
  | [] => ""
  | [x] => pyRepr x
  | x :: xs => pyRepr x ++ ", " ++ pyReprList xs

/-- Comma-joined reprs of dict bindings. -/
def pyReprDict : List (String × PyVal) → String
  | [] => ""
  | [(k, v)] => "\x27" ++ k ++ "\x27: " ++ pyRepr v
  | (k, v) :: kvs => "\x27" ++ k ++ "\x27: " ++ pyRepr v ++ ", " ++ pyReprDict kvs

end

/-- `str(v)`, as an f-string interpolates a value: the bare text for
strings, the canonical format for datetimes, `repr` otherwise. -/
def pyStr : PyVal → String
  | .str s => s
  | .dt d => strftimeCanonical d
  | v => pyRepr v

/-! ## Metric and Request (`src/aws_lambda/api_metrics_put/put.py`) -/

/-- The `Metric` dataclass. `metric_date` is always a `datetime` along the
paths under verification — `get_from_dict` parses or type-checks it — while
the remaining fields carry whatever value the inbound JSON supplied. -/
structure Metric where
  metric_name : PyVal
  time_span : PyVal
  location_name : PyVal
  metric_date : PyDateTime
  metric_value : PyVal
  metric_source : PyVal

/-- `Metric.metric_system_key`: `metric_name@location_name#time_span`, each
field rendered by the f-string's `str`. -/
def Metric.metric_system_key (m : Metric) : String :=
  pyStr m.metric_name ++ "@" ++ pyStr m.location_name ++ "#" ++ pyStr m.time_span

/-- `Metric.__eq__` between two metrics: name, span, location and date,
never value or source. -/
def Metric.beq (a b : Metric) : Bool :=
  pyBeq a.metric_name b.metric_name &&
  pyBeq a.time_span b.time_span &&
  pyBeq a.location_name b.location_name &&
  a.metric_date == b.metric_date

/-- The string `Metric.__hash__` hashes: the compact timestamp followed by
the metric system key. Two metrics hash alike exactly when these strings
coincide (Python's string hash is a fixed per-process function of the
string). -/
def Metric.hashKey (m : Metric) : String :=
  strftimeCompact m.metric_date ++ m.metric_system_key

/-- `Metric.get_from_dict(d, location_name)`: parse or type-check
`metric_date`, fall back to the dict's `location_name` when the override is
missing or falsy, then read the remaining fields; every access mirrors the
source order (`KeyError` for an absent key, `TypeError` for a non-dict
entry or a `metric_date` that is neither `str` nor `datetime`, `ValueError`
for an unparsable date string). -/
def Metric.get_from_dict (d : PyVal) (location_name : Option PyVal := none) :
    Except PyErr Metric := do
  let md ← pyGetItem d "metric_date"
  let metric_date ←
    match md with
    | .str s =>
      match strptimeCanonical s with
      | some t => Except.ok t
      | none => Except.error PyErr.valueError
    | .dt t => Except.ok t
    | _ => Except.error PyErr.typeError
  let loc ←
    match location_name with
    | some l => if pyFalsy l then pyGetItem d "location_name" else Except.ok l
    | none => pyGetItem d "location_name"
  let name ← pyGetItem d "metric_name"
  let span ← pyGetItem d "time_span"
  let value ← pyGetItem d "metric_value"
  let source ← pyGetItem d "metric_source"
  return ⟨name, span, loc, metric_date, value, source⟩

/-- `Metric.to_message()` at the structured level: the JSON object the
queue message serializes, with the server's send timestamp appended. -/
def Metric.to_message (m : Metric) (sendTime : PyDateTime) : List (String × PyVal) :=
  [("metric_name", m.metric_name),
   ("time_span", m.time_span),
   ("location_name", m.location_name),
   ("metric_date", .str (strftimeCanonical m.metric_date)),
   ("metric_value", m.metric_value),
   ("metric_source", m.metric_source),
   ("msg_send_date_utc", .str (strftimeCanonical sendTime))]

/-- The objects `Metric.__eq__` may face: another metric, a mapping with a
callable `get` (a plain dict), or a value with no `get` attribute (an int
stands for those). -/
inductive PyObj where
  | ofMetric (m : Metric)
  | ofDict (d : List (String × PyVal))
  | ofInt (n : Int)

/-- `Metric.__eq__(self, other)` from the source: metric-to-metric on the
four identity fields; duck-typed against anything exposing `get`, comparing
the same four fields to `other.get(...)`; `False` for everything else. -/
def Metric.eqObj (m : Metric) (o : PyObj) : Bool :=
  match o with
  | .ofMetric b => Metric.beq m b
  | .ofDict d =>
    pyBeq m.metric_name (dGetNull d "metric_name") &&
    pyBeq m.time_span (dGetNull d "time_span") &&
    pyBeq m.location_name (dGetNull d "location_name") &&
    pyBeq (.dt m.metric_date) (dGetNull d "metric_date")
  | .ofInt _ => false

/-- The `==` operator between such objects, with Python's dispatch: a
metric on the left uses `Metric.__eq__` (which never returns
`NotImplemented`); `dict.__eq__` and `int.__eq__` return `NotImplemented`
against a metric, so those comparisons fall back to the reflected
`Metric.__eq__`; when both sides decline, `==` is identity, `False` for the
distinct objects here. -/
def pyEqOp (a b : PyObj) : Bool :=
  match a, b with
  | .ofMetric m, _ => Metric.eqObj m b
  | .ofDict _, .ofMetric m => Metric.eqObj m a
  | .ofDict d, .ofDict e => pyBeq (.dict d) (.dict e)
  | .ofDict _, .ofInt _ => false
  | .ofInt n, .ofInt k => n == k
  | .ofInt _, .ofMetric m => Metric.eqObj m a
  | .ofInt _, .ofDict _ => false

/-- The `Request` dataclass, fields in source order; `metrics` starts as
`None`. -/
structure Request where
  api_key : String
  signature : String
  location : PyVal
  message : String
  headers : List (String × String)
  method : String
  host : String
  metrics : Option (List Metric) := none

/-- The metrics a request holds (`None` holds none). -/
def Request.metricsList (r : Request) : List Metric :=
  r.metrics.getD []

/-- `Request.add(metric)`: materialize the set if absent, raise `KeyError`
when the set already holds an equal metric, insert otherwise. Membership is
CPython set membership: an existing element with the same hash string that
compares equal under `Metric.__eq__`. -/
def Request.add (r : Request) (metric : Metric) : Except PyErr Request :=
  let ms := r.metrics.getD []
  if ms.any (fun x => Metric.hashKey x == Metric.hashKey metric && Metric.beq x metric) then
    Except.error PyErr.keyError
  else
    Except.ok { r with metrics := some (ms ++ [metric]) }

/-! ## Event validation (`parse_event`) -/

/-- The inbound AWS event fields `parse_event` reads. `headers` and
`queryStringParameters` are data-level maps (their keys are
caller-controlled); `queryStringParameters` may be `null`. -/
structure Event where
  resource : String
  httpMethod : String
  body : String
  headers : List (String × String)
  queryStringParameters : Option (List (String × String))
  isBase64Encoded : Bool

/-- Lookup in a string-valued header map. -/
def hlookup : List (String × String) → String → Option String
  | [], _ => none
  | (k, v) :: rest, key => if k = key then some v else hlookup rest key

/-- Truthiness of `event['queryStringParameters']`: present and
non-empty. -/
def qspTruthy : Option (List (String × String)) → Bool
  | none => false
  | some l => !l.isEmpty

/-- `len(event['queryStringParameters'])` in the 400 body. -/
def qspCount : Option (List (String × String)) → Nat
  | none => 0
  | some l => l.length

/-- The stdlib capabilities `parse_event` calls: `base64.b64decode` on the
body (`none` = `binascii.Error`, uncaught) and `json.loads` (`none` =
`JSONDecodeError`, caught). -/
structure ValidatorEnv where
  b64decode : String → Option String
  jsonParse : String → Option PyVal

/-- `MAX_BODY_LENGTH = 20 * 1024 * 1024`. -/
def MAX_BODY_LENGTH : Nat := 20 * 1024 * 1024

/-- How `parse_event` terminates: a parsed request, an `EventError`
carrying the canonical response, or a raw exception no handler catches. -/
inductive ParseResult where
  | ok (r : Request)
  | eventError (resp : BaseResponse)
  | uncaught (e : PyErr)

/-- The metric loop of `parse_event`: each entry through
`Metric.get_from_dict` with the request's location as override, then
`Request.add`; `TypeError` and `KeyError` become the 400 naming the entry,
the `ValueError` of an unparsable date string escapes. -/
def parseMetrics (r : Request) (location : PyVal) : List PyVal → ParseResult
  | [] => ParseResult.ok r
  | m :: rest =>
    match Metric.get_from_dict m (some location) with
    | Except.error PyErr.valueError => ParseResult.uncaught PyErr.valueError
    | Except.error _ =>
      ParseResult.eventError ⟨400, [], "Invalid metric: " ++ pyRepr m⟩
    | Except.ok metric =>
      match r.add metric with
      | Except.error _ =>
        ParseResult.eventError ⟨400, [], "Invalid metric: " ++ pyRepr m⟩
      | Except.ok r2 => parseMetrics r2 location rest

/-- `parse_event(event)`, line for line: resource (421), method (405), body
ceiling (413), the unprotected `Host` lookup, query parameters (400), the
optional base64 decode (failure uncaught), `json.loads` (400), the
`location_name`/`X-Bztn-Sign`/`X-Bztn-Key` reads (`KeyError` → 400, the
`TypeError` of a non-object body uncaught), the `metrics` presence and
iterability check (400), then the metric loop. -/
def parse_event (env : ValidatorEnv) (event : Event) : ParseResult :=
  if event.resource ≠ "metric" then
    ParseResult.eventError ⟨421, [], "Bad resource: " ++ event.resource⟩
  else if event.httpMethod ≠ "PUT" then
    ParseResult.eventError ⟨405, [], "Method " ++ event.httpMethod ++ " not allowed"⟩
  else if MAX_BODY_LENGTH ≤ event.body.length then
    ParseResult.eventError ⟨413, [], "Message too big for being processed"⟩
  else
    match hlookup event.headers "Host" with
    | none => ParseResult.uncaught PyErr.keyError
    | some host =>
      if qspTruthy event.queryStringParameters then
        ParseResult.eventError ⟨400, [],
          "0 parameters excepted, got " ++ toString (qspCount event.queryStringParameters)⟩
      else
        match if event.isBase64Encoded then env.b64decode event.body else some event.body with
        | none => ParseResult.uncaught PyErr.valueError
        | some body =>
          match env.jsonParse body with
          | none => ParseResult.eventError ⟨400, [], "Invalid JSon object"⟩
          | some (PyVal.dict message) =>
            match dlookup message "location_name" with
            | none => ParseResult.eventError ⟨400, [], "Bad request"⟩
            | some location =>
              match hlookup event.headers "X-Bztn-Sign" with
              | none => ParseResult.eventError ⟨400, [], "Bad request"⟩
              | some signature =>
                match hlookup event.headers "X-Bztn-Key" with
                | none => ParseResult.eventError ⟨400, [], "Bad request"⟩
                | some api_key =>
                  match dlookup message "metrics" with
                  | none =>
                    ParseResult.eventError ⟨400, [], "Metrics list is empty or not iterable"⟩
                  | some mv =>
                    if !pyIterable mv then
                      ParseResult.eventError ⟨400, [], "Metrics list is empty or not iterable"⟩
                    else
                      parseMetrics
                        ⟨api_key, signature, location, body, event.headers,
                          event.httpMethod, host, none⟩
                        location (pyIterate mv)
          | some _ => ParseResult.uncaught PyErr.typeError

/-! ## Concrete instances used to exercise the theorems -/

/-- A small concrete crypto capability: one key, one digest, one valid
signature. -/
def testCrypto : CryptoEnv where
  sha512 := fun _ => [7]
  importKey := fun bs => if bs = [1] then some [1] else none
  b64decode := fun s => if s = "goodsig" then some [9] else none
  verify := fun pk dg sg => pk == [1] && dg == [7] && sg == [9]

/-- A fixed clock sample. -/
def testNow : PyDateTime := ⟨2026, 10, 12, 0, 0, 0, 0⟩

/-- A healthy key record: wildcard GET scope, far-future expiration. -/
def wildcardItem : Item where
  pub_key := some (.b [1])
  location_get := some (.s "*")
  expiration_date_utc := some (.s "2999-12-31 23:59:59")

/-- The same record scoped to an explicit location set. -/
def setItem : Item :=
  { wildcardItem with location_get := some (.ss ["loc1", "loc2"]) }

/-- A well-formed inbound metric entry. -/
def goodMetricEntry : PyVal := PyVal.dict
  [("metric_name", .str "soiree_disco"), ("time_span", .str "5min"),
   ("metric_date", .str "1995-05-08 12:34:56"), ("metric_value", .num 12),
   ("metric_source", .str "test_case")]

/-- The same entry with an unparsable date string. -/
def blehMetricEntry : PyVal := PyVal.dict
  [("metric_name", .str "soiree_disco"), ("time_span", .str "5min"),
   ("metric_date", .str "bleh"), ("metric_value", .num 12),
   ("metric_source", .str "test_case")]

/-- A request body holding a location and the given metric entries. -/
def bodyDictOf (ms : List PyVal) : PyVal := PyVal.dict
  [("location_name", .str "chez_borris"), ("metrics", .list ms)]

/-- A validator environment whose JSON parser knows the one body `"BODY"`. -/
def testValidatorEnv (v : PyVal) : ValidatorEnv where
  b64decode := fun _ => none
  jsonParse := fun s => if s = "BODY" then some v else none

/-- A well-shaped inbound event around that body. -/
def testEvent : Event where
  resource := "metric"
  httpMethod := "PUT"
  body := "BODY"
  headers := [("Host", "mock"), ("X-Bztn-Sign", "mock_sign"), ("X-Bztn-Key", "mock_key")]
  queryStringParameters := none
  isBase64Encoded := false

/-- A concrete metric value. -/
def metricA : Metric :=
  ⟨.str "soiree_disco", .str "5min", .str "chez_borris",
    ⟨1995, 5, 8, 12, 34, 56, 0⟩, .num 12, .str "test_case"⟩

/-- The same sample with a different value and source. -/
def metricB : Metric :=
  { metricA with metric_value := .num 45, metric_source := .str "corrected" }

/-- A plain dict carrying `metricA`'s identity fields but other
value/source. -/
def metricDictA : List (String × PyVal) :=
  [("metric_name", .str "soiree_disco"), ("time_span", .str "5min"),
   ("location_name", .str "chez_borris"),
   ("metric_date", .dt ⟨1995, 5, 8, 12, 34, 56, 0⟩),
   ("metric_value", .num 99), ("metric_source", .str "elsewhere")]

/-! ## Theorems -/

/-- For an accepted method and a non-sentinel signature, the decision on a
found record is the wrapped record processing. -/
theorem is_allowed_found (env : CryptoEnv) (now : PyDateTime) (item : Item)
    (key message signature location method : String)
    (hm : method = "PUT" ∨ method = "GET") (hs : signature ≠ "earlgrey") :
    is_allowed env now (.found item) key message signature location method =
      wrapExc (processItem env now item message signature location (locAttrOf method)) := by
  rcases hm with h | h <;> subst h <;> simp [is_allowed, hs]

/-- When the expiration test falls through, the decision is the wrapped
remainder. -/
theorem is_allowed_found_nonexpired (env : CryptoEnv) (now : PyDateTime) (item : Item)
    (key message signature location method : String)
    (hm : method = "PUT" ∨ method = "GET") (hs : signature ≠ "earlgrey")
    (hexp : expirationCheck now item = .ok none) :
    is_allowed env now (.found item) key message signature location method =
      wrapExc (afterExpiration env item message signature location (locAttrOf method)) := by
  rw [is_allowed_found env now item key message signature location method hm hs]
  simp [processItem, hexp]

/-- C3 (counterexample): with the sentinel signature but a method outside
GET/PUT, `is_allowed` answers 405, not the 418 the claim requires for every
method. -/
theorem teapot_loses_to_method_check :
    is_allowed testCrypto testNow StoreResult.notFound "k" "msg" "earlgrey" "loc" "DELETE" =
      ⟨405, [], "Method not accepted"⟩ ∧
    is_allowed testCrypto testNow StoreResult.notFound "k" "msg" "earlgrey" "loc" "DELETE" ≠
      ⟨418, [], "I\x27m a teapot"⟩ := by
  decide

/-- C3 (amended): for the accepted methods GET and PUT, the sentinel
signature `earlgrey` yields 418 whatever the key, message, location, store
outcome or crypto capabilities — in particular the decision is independent
of the store, which is only consulted later. Methods outside GET/PUT are
answered 405 first, sentinel or not. -/
theorem teapot_for_accepted_methods (env : CryptoEnv) (now : PyDateTime)
    (store : StoreResult) (key message location method : String)
    (hm : method = "PUT" ∨ method = "GET") :
    is_allowed env now store key message "earlgrey" location method =
      ⟨418, [], "I\x27m a teapot"⟩ := by
  rcases hm with h | h <;> subst h <;> simp [is_allowed]

/-- C3 (witness): the amended theorem at a concrete input. -/
theorem teapot_for_accepted_methods_witness :
    is_allowed testCrypto testNow StoreResult.notFound "k" "msg" "earlgrey" "loc" "GET" =
      ⟨418, [], "I\x27m a teapot"⟩ :=
  teapot_for_accepted_methods testCrypto testNow StoreResult.notFound "k" "msg" "loc" "GET"
    (Or.inr rfl)

/-- C4: for every found key record (reached with an accepted method and a
non-sentinel signature): an absent expiration field lets the decision
proceed to the location and signature stages; a present but unparsable
expiration string yields 500; a parsed timestamp strictly before now yields
403 with body "Expired API Key". -/
theorem authorizer_expiration_rules (env : CryptoEnv) (now : PyDateTime) (item : Item)
    (key message signature location method : String)
    (hm : method = "PUT" ∨ method = "GET") (hs : signature ≠ "earlgrey") :
    (item.expiration_date_utc = none →
      is_allowed env now (.found item) key message signature location method =
        wrapExc (afterExpiration env item message signature location (locAttrOf method))) ∧
    (∀ s, item.expiration_date_utc = some (.s s) → strptimeCanonical s = none →
      is_allowed env now (.found item) key message signature location method =
        ⟨500, [], "Internal Server Error"⟩) ∧
    (∀ s d, item.expiration_date_utc = some (.s s) → strptimeCanonical s = some d →
      dtLt d now = true →
      is_allowed env now (.found item) key message signature location method =
        ⟨403, [], "Expired API Key"⟩) := by
  refine ⟨fun hnone => ?_, fun s hattr hparse => ?_, fun s d hattr hparse hlt => ?_⟩
  · exact is_allowed_found_nonexpired env now item key message signature location method hm hs
      (by simp [expirationCheck, hnone])
  · rw [is_allowed_found env now item key message signature location method hm hs]
    simp [processItem, expirationCheck, hattr, hparse, wrapExc]
  · rw [is_allowed_found env now item key message signature location method hm hs]
    simp [processItem, expirationCheck, hattr, hparse, hlt, wrapExc]

/-- C4 (witness): a record expired in 2020 against a 2026 clock is refused
with 403. -/
theorem authorizer_expiration_rules_witness :
    is_allowed testCrypto testNow
        (.found { wildcardItem with expiration_date_utc := some (.s "2020-01-01 00:00:00") })
        "k" "m" "sig" "loc" "GET" =
      ⟨403, [], "Expired API Key"⟩ :=
  (authorizer_expiration_rules testCrypto testNow
      { wildcardItem with expiration_date_utc := some (.s "2020-01-01 00:00:00") }
      "k" "m" "sig" "loc" "GET" (Or.inr rfl) (by decide)).2.2
    "2020-01-01 00:00:00" ⟨2020, 1, 1, 0, 0, 0, 0⟩ rfl (by decide) (by decide)

/-- C2: for every found, non-expired key record, the location check on the
method-selected attribute: the scalar wildcard `*` passes for every
requested location (the decision becomes the signature stage); any other
scalar yields 403 Forbidden; an explicit set passes exactly when the
requested location is a member — membership is string equality, so
substrings or case-variants of a member are non-members — and yields 403
otherwise. -/
theorem authorizer_location_scope (env : CryptoEnv) (now : PyDateTime) (item : Item)
    (key message signature location method : String)
    (hm : method = "PUT" ∨ method = "GET") (hs : signature ≠ "earlgrey")
    (hexp : expirationCheck now item = .ok none) :
    (getAttr item (locAttrOf method) = some (.s "*") →
      is_allowed env now (.found item) key message signature location method =
        sigStage env item message signature) ∧
    (∀ v, v ≠ "*" → getAttr item (locAttrOf method) = some (.s v) →
      is_allowed env now (.found item) key message signature location method =
        ⟨403, [], "Forbidden"⟩) ∧
    (∀ vs, getAttr item (locAttrOf method) = some (.ss vs) →
      ((location ∈ vs →
        is_allowed env now (.found item) key message signature location method =
          sigStage env item message signature) ∧
       (location ∉ vs →
        is_allowed env now (.found item) key message signature location method =
          ⟨403, [], "Forbidden"⟩))) := by
  have base := is_allowed_found_nonexpired env now item key message signature location method
    hm hs hexp
  refine ⟨fun hattr => ?_, fun v hv hattr => ?_, fun vs hattr => ⟨fun hin => ?_, fun hout => ?_⟩⟩
  · rw [base]; simp [afterExpiration, locationCheck, hattr, sigStage]
  · rw [base]; simp [afterExpiration, locationCheck, hattr, hv, wrapExc]
  · rw [base]; simp [afterExpiration, locationCheck, hattr, hin, sigStage]
  · rw [base]; simp [afterExpiration, locationCheck, hattr, hout, wrapExc]

/-- C2 (witness): a record scoped to the explicit set `{loc1, loc2}`
refuses the case-variant location `Loc1` with 403. -/
theorem authorizer_location_scope_witness :
    is_allowed testCrypto testNow (.found setItem) "k" "m" "goodsig" "Loc1" "GET" =
      ⟨403, [], "Forbidden"⟩ :=
  ((authorizer_location_scope testCrypto testNow setItem "k" "m" "goodsig" "Loc1" "GET"
      (Or.inr rfl) (by decide) rfl).2.2
    ["loc1", "loc2"] rfl).2 (by decide)

/-- C1: for every found, non-expired key record whose location check
passes: a successful PKCS#1 v1.5 verification — key bytes import, signature
base64-decodes, verification succeeds — answers 200 "Access Granted"; a
verification failure of any kind (malformed key bytes, malformed base64,
bad signature) answers 401 "Unauthorized"; a record whose `pub_key` is
missing or not binary answers 500, as does a record missing the selected
location attribute. -/
theorem authorizer_verification_outcomes (env : CryptoEnv) (now : PyDateTime) (item : Item)
    (key message signature location method : String)
    (hm : method = "PUT" ∨ method = "GET") (hs : signature ≠ "earlgrey")
    (hexp : expirationCheck now item = .ok none) :
    (∀ kb pk sig, locationCheck item (locAttrOf method) location = .ok none →
      item.pub_key = some (.b kb) → env.importKey kb = some pk →
      env.b64decode signature = some sig → env.verify pk (env.sha512 message) sig = true →
      is_allowed env now (.found item) key message signature location method =
        ⟨200, [], "Access Granted"⟩) ∧
    (∀ kb, locationCheck item (locAttrOf method) location = .ok none →
      item.pub_key = some (.b kb) → env.importKey kb = none →
      is_allowed env now (.found item) key message signature location method =
        ⟨401, [], "Unauthorized"⟩) ∧
    (∀ kb pk, locationCheck item (locAttrOf method) location = .ok none →
      item.pub_key = some (.b kb) → env.importKey kb = some pk →
      env.b64decode signature = none →
      is_allowed env now (.found item) key message signature location method =
        ⟨401, [], "Unauthorized"⟩) ∧
    (∀ kb pk sig, locationCheck item (locAttrOf method) location = .ok none →
      item.pub_key = some (.b kb) → env.importKey kb = some pk →
      env.b64decode signature = some sig → env.verify pk (env.sha512 message) sig = false →
      is_allowed env now (.found item) key message signature location method =
        ⟨401, [], "Unauthorized"⟩) ∧
    (locationCheck item (locAttrOf method) location = .ok none →
      (∀ kb, item.pub_key ≠ some (.b kb)) →
      is_allowed env now (.found item) key message signature location method =
        ⟨500, [], "Internal Server Error"⟩) ∧
    (getAttr item (locAttrOf method) = none →
      is_allowed env now (.found item) key message signature location method =
        ⟨500, [], "Internal Server Error"⟩) := by
  have base : ∀ _hl : locationCheck item (locAttrOf method) location = .ok none,
      is_allowed env now (.found item) key message signature location method =
        wrapExc (signatureCheck env item message signature) := by
    intro hloc
    rw [is_allowed_found_nonexpired env now item key message signature location method hm hs hexp]
    simp [afterExpiration, hloc]
  refine ⟨fun kb pk sig hloc hpub himp hb64 hver => ?_, fun kb hloc hpub himp => ?_,
    fun kb pk hloc hpub himp hb64 => ?_, fun kb pk sig hloc hpub himp hb64 hver => ?_,
    fun hloc hpub => ?_, fun hattr => ?_⟩
  · rw [base hloc]; simp [signatureCheck, hpub, himp, hb64, hver, wrapExc]
  · rw [base hloc]; simp [signatureCheck, hpub, himp, wrapExc]
  · rw [base hloc]; simp [signatureCheck, hpub, himp, hb64, wrapExc]
  · rw [base hloc]; simp [signatureCheck, hpub, himp, hb64, hver, wrapExc]
  · rw [base hloc]
    cases hpk : item.pub_key with
    | none => simp [signatureCheck, hpk, wrapExc]
    | some av =>
      cases av with
      | s v => simp [signatureCheck, hpk, wrapExc]
      | ss v => simp [signatureCheck, hpk, wrapExc]
      | b v => exact absurd hpk (hpub v)
  · rw [is_allowed_found_nonexpired env now item key message signature location method hm hs hexp]
    simp [afterExpiration, locationCheck, hattr, wrapExc]

/-- C1 (witness): the healthy wildcard record with the valid signature is
granted access. -/
theorem authorizer_verification_outcomes_witness :
    is_allowed testCrypto testNow (.found wildcardItem) "k" "m" "goodsig" "loc" "GET" =
      ⟨200, [], "Access Granted"⟩ :=
  (authorizer_verification_outcomes testCrypto testNow wildcardItem "k" "m" "goodsig" "loc" "GET"
      (Or.inr rfl) (by decide) rfl).1
    [1] [1] [9] rfl rfl rfl rfl (by decide)

/-- C6: two metrics that agree on name, span, location (string labels, as
the schema fixes them) and timestamp are equal under `Metric.__eq__` and
hash over the same string, whatever their values and sources; adding the
second to a request already holding the first raises rather than merging
or overwriting. -/
theorem metric_identity_semantics (n s l : String) (d : PyDateTime)
    (v1 src1 v2 src2 : PyVal) (ms : List Metric) (r : Request)
    (hdiff : v1 ≠ v2 ∨ src1 ≠ src2) :
    Metric.beq ⟨.str n, .str s, .str l, d, v1, src1⟩ ⟨.str n, .str s, .str l, d, v2, src2⟩ =
      true ∧
    Metric.hashKey ⟨.str n, .str s, .str l, d, v1, src1⟩ =
      Metric.hashKey ⟨.str n, .str s, .str l, d, v2, src2⟩ ∧
    (r.metrics = some ms → (⟨.str n, .str s, .str l, d, v1, src1⟩ : Metric) ∈ ms →
      r.add ⟨.str n, .str s, .str l, d, v2, src2⟩ = .error .keyError) := by
  refine ⟨by simp [Metric.beq, pyBeq], rfl, fun hms hmem => ?_⟩
  unfold Request.add
  rw [hms]
  have hany : (ms.any fun x =>
      Metric.hashKey x == Metric.hashKey ⟨.str n, .str s, .str l, d, v2, src2⟩ &&
      Metric.beq x ⟨.str n, .str s, .str l, d, v2, src2⟩) = true := by
    refine List.any_eq_true.mpr ⟨_, hmem, ?_⟩
    simp [Metric.hashKey, Metric.metric_system_key, Metric.beq, pyBeq, pyStr]
  simp [hany]

/-- C6 (witness): the sample metric and its corrected revision collide
inside a request. -/
theorem metric_identity_semantics_witness :
    Metric.beq metricA metricB = true ∧
    Metric.hashKey metricA = Metric.hashKey metricB ∧
    (Request.add
        ⟨"mock_key", "mock_sign", .str "chez_borris", "m", [], "PUT", "mock", some [metricA]⟩
        metricB = .error .keyError) := by
  have h := metric_identity_semantics "soiree_disco" "5min" "chez_borris"
    ⟨1995, 5, 8, 12, 34, 56, 0⟩ (.num 12) (.str "test_case") (.num 45) (.str "corrected")
    [metricA]
    ⟨"mock_key", "mock_sign", .str "chez_borris", "m", [], "PUT", "mock", some [metricA]⟩
    (Or.inl (by simp))
  exact ⟨h.1, h.2.1, h.2.2 rfl (List.mem_singleton.mpr rfl)⟩

/-- C10 (counterexample): for a plain dict whose `get` values match the
metric's identity fields, the reverse comparison `d == m` is true — Python
falls back to the reflected `Metric.__eq__` — where the claim requires it
to be false. -/
theorem metric_duck_reverse_cex :
    pyEqOp (.ofDict metricDictA) (.ofMetric metricA) = true := by rfl

/-- C10 (amended): `m == d` for an object with a callable `get` holds iff
the four identity fields equal the corresponding `get` results, with value
and source never consulted; for a plain dict the reverse comparison
delegates to the reflected `Metric.__eq__` and agrees with `m == d`
(it is not constantly false); an object without `get` never compares
equal. -/
theorem metric_duck_equality (m : Metric) (d : List (String × PyVal))
    (n : Int) (v src : PyVal) :
    (pyEqOp (.ofMetric m) (.ofDict d) =
      (pyBeq m.metric_name (dGetNull d "metric_name") &&
       pyBeq m.time_span (dGetNull d "time_span") &&
       pyBeq m.location_name (dGetNull d "location_name") &&
       pyBeq (.dt m.metric_date) (dGetNull d "metric_date"))) ∧
    (pyEqOp (.ofMetric { m with metric_value := v, metric_source := src }) (.ofDict d) =
      pyEqOp (.ofMetric m) (.ofDict d)) ∧
    (pyEqOp (.ofDict d) (.ofMetric m) = pyEqOp (.ofMetric m) (.ofDict d)) ∧
    (pyEqOp (.ofMetric m) (.ofInt n) = false) :=
  ⟨rfl, rfl, rfl, rfl⟩

/-- A digit character is a digit. -/
theorem digitChar_isDigit (k : Nat) (h : k < 10) : (digitChar k).isDigit = true := by
  interval_cases k <;> decide

/-- Reading a digit character back gives the digit. -/
theorem digitVal_digitChar (k : Nat) (h : k < 10) : digitVal (digitChar k) = k := by
  interval_cases k <;> decide

/-- Two-digit rendering parses back. -/
theorem parse2_pad2 (n : Nat) (h : n < 100) (rest : List Char) :
    parse2 (pad2 n ++ rest) = some (n, rest) := by
  have h1 : n / 10 < 10 := by omega
  have h2 : n % 10 < 10 := by omega
  simp [pad2, parse2, digitChar_isDigit _ h1, digitChar_isDigit _ h2,
    digitVal_digitChar _ h1, digitVal_digitChar _ h2]
  omega

/-- Four-digit rendering parses back. -/
theorem parse4_pad4 (n : Nat) (h : n < 10000) (rest : List Char) :
    parse4 (pad4 n ++ rest) = some (n, rest) := by
  have h1 : n / 1000 < 10 := by omega
  have h2 : n / 100 % 10 < 10 := by omega
  have h3 : n / 10 % 10 < 10 := by omega
  have h4 : n % 10 < 10 := by omega
  simp [pad4, parse4, digitChar_isDigit _ h1, digitChar_isDigit _ h2,
    digitChar_isDigit _ h3, digitChar_isDigit _ h4,
    digitVal_digitChar _ h1, digitVal_digitChar _ h2,
    digitVal_digitChar _ h3, digitVal_digitChar _ h4]
  omega

/-- A literal separator is consumed. -/
theorem expectChar_cons (c : Char) (rest : List Char) :
    expectChar c (c :: rest) = some rest := by
  simp [expectChar]

/-- `strptime` inverts `strftime` on every valid second-precision
timestamp. -/
theorem strptime_strftime (d : PyDateTime) (hv : d.isValid = true) (hu : d.usec = 0) :
    strptimeCanonical (strftimeCanonical d) = some d := by
  cases d with
  | mk y mo da h mi s u =>
    simp only at hu
    subst hu
    have hb := hv
    unfold PyDateTime.isValid at hb
    simp only [Bool.and_eq_true, decide_eq_true_eq] at hb
    obtain ⟨⟨⟨⟨⟨⟨⟨⟨⟨hy1, hy2⟩, hmo1⟩, hmo2⟩, hda1⟩, hda2⟩, hh⟩, hmi⟩, hs⟩, hu⟩ := hb
    have hda3 : daysInMonth y mo ≤ 31 := by
      unfold daysInMonth
      split_ifs <;> omega
    unfold strftimeCanonical strptimeCanonical
    simp only [List.cons_append, List.append_assoc]
    have hlast := parse2_pad2 s (by omega) []
    simp only [List.append_nil] at hlast
    simp [parse4_pad4 y (by omega), parse2_pad2 mo (by omega), parse2_pad2 da (by omega),
      parse2_pad2 h (by omega), parse2_pad2 mi (by omega), hlast, expectChar_cons, hv]

/-- Bind on a successful `Except` computation reduces. -/
theorem exceptBind_ok {α β ε : Type} (a : α) (f : α → Except ε β) :
    ((Except.ok a : Except ε α) >>= f) = f a := rfl

/-- Bind on a failed `Except` computation short-circuits. -/
theorem exceptBind_error {α β ε : Type} (e : ε) (f : α → Except ε β) :
    ((Except.error e : Except ε α) >>= f) = Except.error e := rfl

/-- C9: for every metric whose timestamp has second precision (and is a
value `datetime` admits), serializing to the outbound queue message and
parsing the fields back — the appended send timestamp being an extra key
the parse ignores — reproduces every field exactly. -/
theorem metric_message_roundtrip (m : Metric) (sendTime : PyDateTime)
    (hv : m.metric_date.isValid = true) (hu : m.metric_date.usec = 0) :
    Metric.get_from_dict (.dict (m.to_message sendTime)) none = .ok m := by
  unfold Metric.to_message Metric.get_from_dict
  simp [pyGetItem, dlookup, exceptBind_ok, strptime_strftime m.metric_date hv hu]

/-- C9 (witness): the sample metric round-trips through its queue
message. -/
theorem metric_message_roundtrip_witness :
    Metric.get_from_dict (.dict (metricA.to_message testNow)) none = .ok metricA :=
  metric_message_roundtrip metricA testNow (by decide) rfl

/-- C7 (counterexample): an event that reaches the query-parameter check
with a present query parameter but no `Host` header does not produce the
400 the claim requires — the unprotected `Host` lookup sitting between the
size check and the query check raises an uncaught `KeyError`. -/
theorem validator_missing_host_cex :
    parse_event (testValidatorEnv (bodyDictOf [goodMetricEntry]))
        { testEvent with
            headers := [("X-Bztn-Sign", "mock_sign"), ("X-Bztn-Key", "mock_key")],
            queryStringParameters := some [("x", "y")] } =
      ParseResult.uncaught PyErr.keyError ∧
    ∀ resp,
      parse_event (testValidatorEnv (bodyDictOf [goodMetricEntry]))
          { testEvent with
              headers := [("X-Bztn-Sign", "mock_sign"), ("X-Bztn-Key", "mock_key")],
              queryStringParameters := some [("x", "y")] } ≠
        ParseResult.eventError resp :=
  ⟨rfl, fun _ h => ParseResult.noConfusion h⟩

/-- C7 (amended): `parse_event` applies the structural checks in the fixed
order — wrong resource 421, method other than PUT 405, body length at or
above the 20 MiB ceiling 413, then (after the `Host` header is read; its
absence raises an uncaught `KeyError` at this point) any present query
parameter 400 — stopping at the first violation. -/
theorem validator_check_order (env : ValidatorEnv) (e : Event) :
    (e.resource ≠ "metric" →
      parse_event env e = .eventError ⟨421, [], "Bad resource: " ++ e.resource⟩) ∧
    (e.resource = "metric" → e.httpMethod ≠ "PUT" →
      parse_event env e = .eventError ⟨405, [], "Method " ++ e.httpMethod ++ " not allowed"⟩) ∧
    (e.resource = "metric" → e.httpMethod = "PUT" → MAX_BODY_LENGTH ≤ e.body.length →
      parse_event env e = .eventError ⟨413, [], "Message too big for being processed"⟩) ∧
    (e.resource = "metric" → e.httpMethod = "PUT" → e.body.length < MAX_BODY_LENGTH →
      hlookup e.headers "Host" = none →
      parse_event env e = .uncaught .keyError) ∧
    (∀ host, e.resource = "metric" → e.httpMethod = "PUT" →
      e.body.length < MAX_BODY_LENGTH →
      hlookup e.headers "Host" = some host → qspTruthy e.queryStringParameters = true →
      parse_event env e = .eventError ⟨400, [],
        "0 parameters excepted, got " ++ toString (qspCount e.queryStringParameters)⟩) := by
  refine ⟨fun h1 => ?_, fun h1 h2 => ?_, fun h1 h2 h3 => ?_, fun h1 h2 h3 h4 => ?_,
    fun host h1 h2 h3 h4 h5 => ?_⟩
  · simp [parse_event, h1]
  · simp [parse_event, h1, h2]
  · simp [parse_event, h1, h2, h3]
  · simp [parse_event, h1, h2, Nat.not_le.mpr h3, h4]
  · simp [parse_event, h1, h2, Nat.not_le.mpr h3, h4, h5]

/-- C7 (witness): a wrong resource name is refused with 421 before
anything else is looked at. -/
theorem validator_check_order_witness :
    parse_event (testValidatorEnv (bodyDictOf [goodMetricEntry]))
        { testEvent with resource := "none" } =
      .eventError ⟨421, [], "Bad resource: " ++ "none"⟩ :=
  (validator_check_order (testValidatorEnv (bodyDictOf [goodMetricEntry]))
      { testEvent with resource := "none" }).1 (by decide)

/-- C8: once the structural checks pass and the body parses to an object
with a location and the signing headers, a missing or non-iterable
`metrics` value is refused with 400, while an empty iterable is accepted
and yields a request holding zero metrics. -/
theorem metrics_field_validation (env : ValidatorEnv) (e : Event)
    (msg : List (String × PyVal)) (location : PyVal) (host sign key2 : String)
    (hres : e.resource = "metric") (hmeth : e.httpMethod = "PUT")
    (hlen : e.body.length < MAX_BODY_LENGTH)
    (hhost : hlookup e.headers "Host" = some host)
    (hqsp : qspTruthy e.queryStringParameters = false)
    (hb64 : e.isBase64Encoded = false)
    (hjson : env.jsonParse e.body = some (.dict msg))
    (hloc : dlookup msg "location_name" = some location)
    (hsign : hlookup e.headers "X-Bztn-Sign" = some sign)
    (hkey : hlookup e.headers "X-Bztn-Key" = some key2) :
    (dlookup msg "metrics" = none →
      parse_event env e = .eventError ⟨400, [], "Metrics list is empty or not iterable"⟩) ∧
    (∀ mv, dlookup msg "metrics" = some mv → pyIterable mv = false →
      parse_event env e = .eventError ⟨400, [], "Metrics list is empty or not iterable"⟩) ∧
    (∀ mv, dlookup msg "metrics" = some mv → pyIterable mv = true → pyIterate mv = [] →
      parse_event env e =
        .ok ⟨key2, sign, location, e.body, e.headers, e.httpMethod, host, none⟩ ∧
      Request.metricsList
        ⟨key2, sign, location, e.body, e.headers, e.httpMethod, host, none⟩ = []) := by
  refine ⟨fun hm => ?_, fun mv hm hit => ?_, fun mv hm hit hempty => ⟨?_, rfl⟩⟩
  · simp [parse_event, hres, hmeth, Nat.not_le.mpr hlen, hhost, hqsp, hb64, hjson, hloc,
      hsign, hkey, hm]
  · simp [parse_event, hres, hmeth, Nat.not_le.mpr hlen, hhost, hqsp, hb64, hjson, hloc,
      hsign, hkey, hm, hit]
  · simp [parse_event, hres, hmeth, Nat.not_le.mpr hlen, hhost, hqsp, hb64, hjson, hloc,
      hsign, hkey, hm, hit, hempty, parseMetrics]

/-- C8 (witness): a body whose `metrics` is the empty list parses into a
request with zero metrics. -/
theorem metrics_field_validation_witness :
    parse_event (testValidatorEnv (bodyDictOf [])) testEvent =
      .ok ⟨"mock_key", "mock_sign", .str "chez_borris", "BODY",
        [("Host", "mock"), ("X-Bztn-Sign", "mock_sign"), ("X-Bztn-Key", "mock_key")],
        "PUT", "mock", none⟩ :=
  (((metrics_field_validation (testValidatorEnv (bodyDictOf [])) testEvent
      [("location_name", .str "chez_borris"), ("metrics", .list [])]
      (.str "chez_borris") "mock" "mock_sign" "mock_key"
      rfl rfl (by decide) rfl rfl rfl rfl rfl rfl rfl).2.2
    (.list []) rfl rfl rfl).1)

/-- The metric loop terminates with a parsed request, a caught 400, or the
escaping `ValueError` — never any other raw fault. -/
theorem parseMetrics_classification (loc : PyVal) (ms : List PyVal) :
    ∀ r : Request,
      (∃ r2, parseMetrics r loc ms = .ok r2) ∨
      (∃ resp, parseMetrics r loc ms = .eventError resp) ∨
      parseMetrics r loc ms = .uncaught PyErr.valueError := by
  induction ms with
  | nil => exact fun r => Or.inl ⟨r, rfl⟩
  | cons m rest ih =>
    intro r
    cases hg : Metric.get_from_dict m (some loc) with
    | error err =>
      cases err with
      | keyError =>
        have h : parseMetrics r loc (m :: rest) =
            .eventError ⟨400, [], "Invalid metric: " ++ pyRepr m⟩ := by
          simp [parseMetrics, hg]
        exact Or.inr (Or.inl ⟨_, h⟩)
      | valueError => exact Or.inr (Or.inr (by simp [parseMetrics, hg]))
      | typeError =>
        have h : parseMetrics r loc (m :: rest) =
            .eventError ⟨400, [], "Invalid metric: " ++ pyRepr m⟩ := by
          simp [parseMetrics, hg]
        exact Or.inr (Or.inl ⟨_, h⟩)
    | ok metric =>
      cases ha : r.add metric with
      | error err2 =>
        have h : parseMetrics r loc (m :: rest) =
            .eventError ⟨400, [], "Invalid metric: " ++ pyRepr m⟩ := by
          simp [parseMetrics, hg, ha]
        exact Or.inr (Or.inl ⟨_, h⟩)
      | ok r2 =>
        have hstep : parseMetrics r loc (m :: rest) = parseMetrics r2 loc rest := by
          simp [parseMetrics, hg, ha]
        rw [hstep]
        exact ih r2

/-- C5 (amended): with the `Host` header present, a decodable body and a
JSON object payload, `parse_event` either returns a validated request,
fails with a structured `EventError` response, or raises the one fault no
handler catches: the `ValueError` of an unparsable `metric_date` string
(the loop catches only `TypeError` and `KeyError`). A wrong-typed
`metric_date` is a `TypeError` and a missing `metric_date` a `KeyError`,
both caught and converted to the 400 naming the offending entry; the
unparsable string is the `ValueError` that escapes the validator. -/
theorem validator_fault_classification (env : ValidatorEnv) (e : Event) (m : PyVal) :
    ((hlookup e.headers "Host").isSome = true →
     (e.isBase64Encoded = true → (env.b64decode e.body).isSome = true) →
     (∀ b v, (if e.isBase64Encoded then env.b64decode e.body else some e.body) = some b →
        env.jsonParse b = some v → ∃ kvs, v = PyVal.dict kvs) →
     (∃ r, parse_event env e = .ok r) ∨
     (∃ resp, parse_event env e = .eventError resp) ∨
     parse_event env e = .uncaught PyErr.valueError) ∧
    (∀ msg location host sign key2,
      e.resource = "metric" → e.httpMethod = "PUT" → e.body.length < MAX_BODY_LENGTH →
      hlookup e.headers "Host" = some host → qspTruthy e.queryStringParameters = false →
      e.isBase64Encoded = false → env.jsonParse e.body = some (.dict msg) →
      dlookup msg "location_name" = some location →
      hlookup e.headers "X-Bztn-Sign" = some sign →
      hlookup e.headers "X-Bztn-Key" = some key2 →
      dlookup msg "metrics" = some (.list [m]) →
      ((Metric.get_from_dict m (some location) = .error PyErr.typeError ∨
        Metric.get_from_dict m (some location) = .error PyErr.keyError) →
        parse_event env e = .eventError ⟨400, [], "Invalid metric: " ++ pyRepr m⟩) ∧
      (Metric.get_from_dict m (some location) = .error PyErr.valueError →
        parse_event env e = .uncaught PyErr.valueError)) ∧
    (∀ w location, pyGetItem m "metric_date" = .ok w →
      (∀ s, w ≠ .str s) → (∀ t, w ≠ .dt t) →
      Metric.get_from_dict m (some location) = .error PyErr.typeError) ∧
    (∀ kvs location, m = .dict kvs → dlookup kvs "metric_date" = none →
      Metric.get_from_dict m (some location) = .error PyErr.keyError) ∧
    (∀ str location, pyGetItem m "metric_date" = .ok (.str str) →
      strptimeCanonical str = none →
      Metric.get_from_dict m (some location) = .error PyErr.valueError) := by
  refine ⟨?_, ?_, ?_, ?_, ?_⟩
  · intro hhost hb64 hdict
    by_cases h1 : e.resource = "metric"
    case neg =>
      exact Or.inr (Or.inl ⟨⟨421, [], "Bad resource: " ++ e.resource⟩,
        by simp [parse_event, h1]⟩)
    by_cases h2 : e.httpMethod = "PUT"
    case neg =>
      exact Or.inr (Or.inl ⟨⟨405, [], "Method " ++ e.httpMethod ++ " not allowed"⟩,
        by simp [parse_event, h1, h2]⟩)
    by_cases h3 : MAX_BODY_LENGTH ≤ e.body.length
    case pos =>
      exact Or.inr (Or.inl ⟨⟨413, [], "Message too big for being processed"⟩,
        by simp [parse_event, h1, h2, h3]⟩)
    cases hh : hlookup e.headers "Host" with
    | none => rw [hh] at hhost; simp at hhost
    | some host =>
    by_cases h4 : qspTruthy e.queryStringParameters = true
    case pos =>
      exact Or.inr (Or.inl ⟨⟨400, [],
        "0 parameters excepted, got " ++ toString (qspCount e.queryStringParameters)⟩,
        by simp [parse_event, h1, h2, h3, hh, h4]⟩)
    have h4f : qspTruthy e.queryStringParameters = false := by
      revert h4; cases qspTruthy e.queryStringParameters <;> simp
    cases hdec : (if e.isBase64Encoded then env.b64decode e.body else some e.body) with
    | none =>
      exfalso
      cases hE : e.isBase64Encoded with
      | false => rw [hE] at hdec; simp at hdec
      | true =>
        rw [hE] at hdec
        simp only [if_pos] at hdec
        have hb := hb64 hE
        rw [hdec] at hb
        simp at hb
    | some b =>
    cases hj : env.jsonParse b with
    | none =>
      exact Or.inr (Or.inl ⟨⟨400, [], "Invalid JSon object"⟩,
        by simp [parse_event, h1, h2, h3, hh, h4f, hdec, hj]⟩)
    | some v =>
    obtain ⟨kvs, hv⟩ := hdict b v hdec hj
    subst hv
    cases hl : dlookup kvs "location_name" with
    | none =>
      exact Or.inr (Or.inl ⟨⟨400, [], "Bad request"⟩,
        by simp [parse_event, h1, h2, h3, hh, h4f, hdec, hj, hl]⟩)
    | some location =>
    cases hsg : hlookup e.headers "X-Bztn-Sign" with
    | none =>
      exact Or.inr (Or.inl ⟨⟨400, [], "Bad request"⟩,
        by simp [parse_event, h1, h2, h3, hh, h4f, hdec, hj, hl, hsg]⟩)
    | some sign =>
    cases hk : hlookup e.headers "X-Bztn-Key" with
    | none =>
      exact Or.inr (Or.inl ⟨⟨400, [], "Bad request"⟩,
        by simp [parse_event, h1, h2, h3, hh, h4f, hdec, hj, hl, hsg, hk]⟩)
    | some key2 =>
    cases hm : dlookup kvs "metrics" with
    | none =>
      exact Or.inr (Or.inl ⟨⟨400, [], "Metrics list is empty or not iterable"⟩,
        by simp [parse_event, h1, h2, h3, hh, h4f, hdec, hj, hl, hsg, hk, hm]⟩)
    | some mv =>
    by_cases hit : pyIterable mv = true
    case neg =>
      have hitf : pyIterable mv = false := by
        revert hit; cases pyIterable mv <;> simp
      exact Or.inr (Or.inl ⟨⟨400, [], "Metrics list is empty or not iterable"⟩,
        by simp [parse_event, h1, h2, h3, hh, h4f, hdec, hj, hl, hsg, hk, hm, hitf]⟩)
    have base : parse_event env e =
        parseMetrics ⟨key2, sign, location, b, e.headers, e.httpMethod, host, none⟩
          location (pyIterate mv) := by
      simp [parse_event, h1, h2, h3, hh, h4f, hdec, hj, hl, hsg, hk, hm, hit]
    rw [base]
    exact parseMetrics_classification location (pyIterate mv) _
  · intro msg location host sign key2 h1 h2 h3 hh h4 hE hj hl hsg hk hm
    have base : parse_event env e =
        parseMetrics ⟨key2, sign, location, e.body, e.headers, e.httpMethod, host, none⟩
          location [m] := by
      simp [parse_event, h1, h2, Nat.not_le.mpr h3, hh, h4, hE, hj, hl, hsg, hk, hm,
        pyIterable, pyIterate]
    refine ⟨fun hg => ?_, fun hg => ?_⟩
    · rw [base]
      rcases hg with hg | hg <;> simp [parseMetrics, hg]
    · rw [base]
      simp [parseMetrics, hg]
  · intro w location hw hs ht
    unfold Metric.get_from_dict
    rw [hw]
    cases w with
    | str s => exact absurd rfl (hs s)
    | dt t => exact absurd rfl (ht t)
    | num n => rfl
    | bool b => rfl
    | null => rfl
    | list xs => rfl
    | dict kvs => rfl
  · intro kvs location hkvs hnone
    subst hkvs
    unfold Metric.get_from_dict
    simp [pyGetItem, hnone, exceptBind_error]
  · intro str location hw hparse
    unfold Metric.get_from_dict
    rw [hw]
    simp [exceptBind_ok, exceptBind_error, hparse]

/-- C5 (counterexample): a well-formed event whose single metric entry
carries the unparsable date string "bleh" makes `parse_event` raise an
uncaught `ValueError` — it neither returns a request nor fails with a
structured validation error, where the claim requires a 400 response. -/
theorem validator_unparsable_date_escape_cex :
    parse_event (testValidatorEnv (bodyDictOf [blehMetricEntry])) testEvent =
      ParseResult.uncaught PyErr.valueError ∧
    (∀ r, parse_event (testValidatorEnv (bodyDictOf [blehMetricEntry])) testEvent ≠
      ParseResult.ok r) ∧
    (∀ resp, parse_event (testValidatorEnv (bodyDictOf [blehMetricEntry])) testEvent ≠
      ParseResult.eventError resp) :=
  ⟨rfl, fun _ h => ParseResult.noConfusion h, fun _ h => ParseResult.noConfusion h⟩

/-- C5 (witness): the unparsable-date leg of the amended theorem at the
concrete entry "bleh". -/
theorem validator_fault_classification_witness :
    Metric.get_from_dict blehMetricEntry (some (PyVal.str "chez_borris")) =
      .error PyErr.valueError :=
  (validator_fault_classification (testValidatorEnv (bodyDictOf [blehMetricEntry])) testEvent
      blehMetricEntry).2.2.2.2 "bleh" (PyVal.str "chez_borris") rfl rfl

end Benzaiten
